import Mathlib

/-!
# Landing-zone composition function: embedding and verified properties

A shallow embedding of `fn.go` and `input/v1beta1/input.go`: the policy matrix
`supportedTiersByEnv`, `RunFunction`, `handleClassicUX`, `handleModernUX` and
`generateDesiredResources`, together with models of the SDK calls they make
(`response.To`, `response.Fatal`, `response.Warning`, `response.ConditionTrue`,
`response.ConditionFalse`, `response.SetDesiredComposedResources`,
`errors.Wrapf`, `errors.Errorf`, `composed.From`).

Conventions.
* A Go `error` value is `Option GoError`; `none` is the nil error.
* A Go call that can dereference nil returns `Except GoPanic _`.
* A Go `map[string]V` is an association list with unique keys (`GoMap V`); the
  order of the list is a representation detail and theorems speak about lookups
  and key membership.
* `time.Duration` is a number of nanoseconds.
-/

set_option autoImplicit false
set_option linter.dupNamespace false

namespace Fn

/-! ## Go runtime values -/

/-- A non-nil Go error, identified by the text its `Error()` method returns. -/
structure GoError where
  msg : String
  deriving DecidableEq, Repr

/-- Run-time panics of the Go program. -/
inductive GoPanic where
  | nilDereference
  deriving DecidableEq, Repr

/-- The call `err.Error()`: a method call on a nil interface value panics. -/
def GoError.Error : Option GoError → Except GoPanic String
  | none => .error .nilDereference
  | some e => .ok e.msg

/-- Nanoseconds, as in `time.Duration`. -/
abbrev Duration := Int

/-- The constant `time.Second`. -/
def Second : Duration := 1000000000

/-- The constant `time.Minute`. -/
def Minute : Duration := 60 * Second

/-- A Go map with string keys, kept as an association list with unique keys. -/
abbrev GoMap (V : Type) := List (String × V)

/-- The map read `m[k]` in its two-valued form. -/
def GoMap.get? {V : Type} (m : GoMap V) (k : String) : Option V :=
  match m with
  | [] => none
  | (k', v) :: rest => if k' = k then some v else GoMap.get? rest k

/-- The map write `m[k] = v`: any earlier binding of `k` is replaced. -/
def GoMap.set {V : Type} (m : GoMap V) (k : String) (v : V) : GoMap V :=
  (k, v) :: m.filter (fun p => !decide (p.1 = k))

/-- The keys bound in a map. -/
def GoMap.keys {V : Type} (m : GoMap V) : List String :=
  m.map Prod.fst

/-- The digits of `n` in lower-case hexadecimal, padded with zeros to `width`. -/
def lowerHex (width n : Nat) : String :=
  let ds := Nat.toDigits 16 n
  String.mk (List.replicate (width - ds.length) '0' ++ ds)

/-- The test `strconv.IsPrint` on a code point: exact up to U+00FF (0x20 to 0x7E,
and 0xA1 to 0xFF without the soft hyphen 0xAD); code points above U+00FF are
taken as printable, the tables of `strconv` for them are not reproduced. -/
def isPrint (r : Nat) : Bool :=
  if r ≤ 0xFF then
    (decide (0x20 ≤ r) && decide (r ≤ 0x7E)) || (decide (0xA1 ≤ r) && !decide (r = 0xAD))
  else true

/-- One character as `strconv.Quote` writes it: the quote and the backslash
behind a backslash, a printable character as it is, the control characters with
a letter escape as that escape, other characters below the blank and 0x7F as
two hexadecimal digits, the rest as four or eight. -/
def quoteRune (c : Char) : String :=
  if c = '"' then "\\\""
  else if c = '\\' then "\\\\"
  else if isPrint c.toNat then String.singleton c
  else if c.toNat = 7 then "\\a"
  else if c.toNat = 8 then "\\b"
  else if c.toNat = 12 then "\\f"
  else if c.toNat = 10 then "\\n"
  else if c.toNat = 13 then "\\r"
  else if c.toNat = 9 then "\\t"
  else if c.toNat = 11 then "\\v"
  else if c.toNat < 0x20 ∨ c.toNat = 0x7F then "\\x" ++ lowerHex 2 c.toNat
  else if c.toNat < 0x10000 then "\\u" ++ lowerHex 4 c.toNat
  else "\\U" ++ lowerHex 8 c.toNat

/-- The verb `%q` on a string, that is `strconv.Quote`: the characters as
`quoteRune` writes them, between double quotes. -/
def fmtQuote (s : String) : String :=
  "\"" ++ String.join (s.toList.map quoteRune) ++ "\""

/-- The call `errors.Errorf(format, args...)` with the text already formatted:
always a non-nil error. -/
def errors.Errorf (text : String) : Option GoError :=
  some ⟨text⟩

/-- The call `errors.Wrapf(err, format, args...)` of crossplane-runtime with the
text already formatted: nil when `err` is nil, otherwise an error whose text is
the message, a colon and a blank, and the text of `err`. -/
def errors.Wrapf (err : Option GoError) (text : String) : Option GoError :=
  match err with
  | none => none
  | some e => some ⟨text ++ ": " ++ e.msg⟩

/-! ## Documents -/

/-- A loosely typed document (`structpb.Value`); only integral numbers occur. -/
inductive Value where
  | null
  | bool (b : Bool)
  | number (n : Int)
  | string (s : String)
  | list (vs : List Value)
  | struct (fields : List (String × Value))

/-- The member `k` of a document that is an object. -/
def Value.field (v : Value) (k : String) : Option Value :=
  match v with
  | .struct fields => fields.lookup k
  | _ => none

/-- The value at a path of field names, if every step exists. -/
def Value.atPath (v : Value) : List String → Option Value
  | [] => some v
  | k :: ks =>
    match v.field k with
    | none => none
    | some w => w.atPath ks

/-- The accessor `GetString(path)` of a composite resource, the dotted path given
as its segments: the string at the path, or the empty string and an error when
the path is absent or does not hold a string. -/
def Value.GetString (v : Value) (path : List String) : String × Option GoError :=
  match v.atPath path with
  | some (.string s) => (s, none)
  | some _ => ("", some ⟨String.intercalate "." path ++ ": not a string"⟩)
  | none => ("", some ⟨String.intercalate "." path ++ ": no such field"⟩)

/-- The accessor `GetGenerateName()`: `metadata.generateName`, or the empty
string. -/
def Value.GetGenerateName (v : Value) : String :=
  (v.GetString ["metadata", "generateName"]).1

/-! ## input/v1beta1 -/

/-- The type `UXType`, a string. -/
abbrev UXType := String

/-- The constant `ClassicUX`. -/
def ClassicUX : UXType := "classic"

/-- The constant `ModernUX`. -/
def ModernUX : UXType := "modern"

/-- The function input `Input`; only the field `UX` is read. -/
structure Input where
  UX : UXType
  deriving DecidableEq, Repr

/-! ## provider-nop and composed resources -/

/-- The type `corev1.ConditionStatus`, a string. -/
abbrev ConditionStatus := String

/-- The constant `corev1.ConditionTrue`. -/
def ConditionTrue : ConditionStatus := "True"

/-- The constant `corev1.ConditionFalse`. -/
def ConditionFalse : ConditionStatus := "False"

/-- The constant `xpv1.TypeReady`. -/
def TypeReady : String := "Ready"

/-- An entry of `conditionAfter`. -/
structure ResourceConditionAfter where
  Time : Duration
  ConditionType : String
  ConditionStatus : ConditionStatus
  deriving DecidableEq, Repr

/-- The fields of `NopResource` that the function sets: `metadata.name` and
`spec.forProvider.conditionAfter`. -/
structure NopResource where
  Name : String
  ConditionAfter : List ResourceConditionAfter
  deriving DecidableEq, Repr

/-- A composed resource in unstructured form: the object with the `apiVersion`
and `kind` registered for its type. -/
structure Unstructured where
  apiVersion : String
  kind : String
  object : NopResource
  deriving DecidableEq, Repr

/-- The call `composed.From(r)` for a `NopResource`, after line 152 has added the
provider-nop types to the scheme: the conversion finds the registered kind and
succeeds. -/
def composed.From (r : NopResource) : Unstructured × Option GoError :=
  ({ apiVersion := "nop.crossplane.io/v1alpha1", kind := "NopResource", object := r }, none)

/-- The type `resource.DesiredComposed`. -/
structure DesiredComposed where
  Resource : Unstructured
  deriving DecidableEq, Repr

/-! ## Request and response -/

/-- The content of an `fnv1.Resource`: a composed resource rendered by
`resource.AsStruct`, or a document that came with the request. -/
inductive Struct where
  | ofComposed (u : Unstructured)
  | ofValue (v : Value)

/-- The message `fnv1.Resource`. -/
structure Resource where
  Resource : Struct

/-- The enumeration `fnv1.Severity`. -/
inductive Severity where
  | unspecified
  | fatal
  | warning
  | normal
  deriving DecidableEq, Repr

/-- The enumeration `fnv1.Target`. -/
inductive Target where
  | unspecified
  | composite
  | compositeAndClaim
  deriving DecidableEq, Repr

/-- The enumeration `fnv1.Status`. -/
inductive Status where
  | unspecified
  | conditionUnknown
  | conditionTrue
  | conditionFalse
  deriving DecidableEq, Repr

/-- The message `fnv1.Result`. -/
structure Result where
  Severity : Severity
  Message : String
  Target : Option Target
  deriving DecidableEq, Repr

/-- The message `fnv1.Condition`. -/
structure Condition where
  Type_ : String
  Status : Status
  Reason : String
  Message : Option String
  Target : Option Target
  deriving DecidableEq, Repr

/-- The message `fnv1.ResponseMeta`. -/
structure ResponseMeta where
  Tag : String
  Ttl : Duration
  deriving DecidableEq, Repr

/-- The composite resource returned by `request.GetObservedCompositeResource`. -/
structure Composite where
  Resource : Value

/-- A request, as the function reads it: the tag of its meta, the outcome of
`request.GetInput`, the outcome of `request.GetObservedCompositeResource`, and the
desired composed resources accumulated by earlier steps of the pipeline. -/
structure RunFunctionRequest where
  Tag : String
  Input : Except GoError Input
  Observed : Except GoError Composite
  Desired : GoMap Resource

/-- The message `fnv1.RunFunctionResponse`. -/
structure RunFunctionResponse where
  Meta : ResponseMeta
  Desired : GoMap Resource
  Results : List Result
  Conditions : List Condition

/-- Apply `f` to the last element of a list: the effect of an option method on
the entry that was just appended. -/
def modifyLast {α : Type} (f : α → α) : List α → List α
  | [] => []
  | [a] => [f a]
  | a :: b :: rest => a :: modifyLast f (b :: rest)

/-- The constant `response.DefaultTTL`. -/
def response.DefaultTTL : Duration := 1 * Minute

/-- The call `response.To(req, ttl)`: a response carrying the tag, the ttl and the
desired state of the request. -/
def response.To (req : RunFunctionRequest) (ttl : Duration) : RunFunctionResponse :=
  { Meta := { Tag := req.Tag, Ttl := ttl }, Desired := req.Desired, Results := [], Conditions := [] }

/-- The call `response.Fatal(rsp, err)`: appends a fatal result whose message is
`err.Error()`, targeting the composite. -/
def response.Fatal (rsp : RunFunctionResponse) (err : Option GoError) :
    Except GoPanic RunFunctionResponse :=
  match GoError.Error err with
  | .error p => .error p
  | .ok m =>
    .ok { rsp with Results := rsp.Results ++
      [{ Severity := .fatal, Message := m, Target := some .composite }] }

/-- The call `response.Warning(rsp, err)`: appends a warning result whose message
is `err.Error()`, targeting the composite. -/
def response.Warning (rsp : RunFunctionResponse) (err : Option GoError) :
    Except GoPanic RunFunctionResponse :=
  match GoError.Error err with
  | .error p => .error p
  | .ok m =>
    .ok { rsp with Results := rsp.Results ++
      [{ Severity := .warning, Message := m, Target := some .composite }] }

/-- The method `TargetCompositeAndClaim()` on the result just appended. -/
def response.ResultTargetCompositeAndClaim (rsp : RunFunctionResponse) : RunFunctionResponse :=
  { rsp with Results := modifyLast (fun r => { r with Target := some .compositeAndClaim }) rsp.Results }

/-- The call `response.ConditionTrue(rsp, typ, reason)`: appends a condition with
status true, targeting the composite. -/
def response.ConditionTrue (rsp : RunFunctionResponse) (typ reason : String) : RunFunctionResponse :=
  { rsp with Conditions := rsp.Conditions ++
    [{ Type_ := typ, Status := .conditionTrue, Reason := reason, Message := none,
       Target := some .composite }] }

/-- The call `response.ConditionFalse(rsp, typ, reason)`: appends a condition with
status false, targeting the composite. -/
def response.ConditionFalse (rsp : RunFunctionResponse) (typ reason : String) : RunFunctionResponse :=
  { rsp with Conditions := rsp.Conditions ++
    [{ Type_ := typ, Status := .conditionFalse, Reason := reason, Message := none,
       Target := some .composite }] }

/-- The method `WithMessage(message)` on the condition just appended. -/
def response.WithMessage (rsp : RunFunctionResponse) (message : String) : RunFunctionResponse :=
  { rsp with Conditions := modifyLast (fun c => { c with Message := some message }) rsp.Conditions }

/-- The method `TargetCompositeAndClaim()` on the condition just appended. -/
def response.ConditionTargetCompositeAndClaim (rsp : RunFunctionResponse) : RunFunctionResponse :=
  { rsp with Conditions :=
      modifyLast (fun c => { c with Target := some .compositeAndClaim }) rsp.Conditions }

/-- The call `response.SetDesiredComposedResources(rsp, dcds)`: every entry of
`dcds` is rendered and written into the desired resources of the response under
its name; the rendering of a composed resource does not fail. -/
def response.SetDesiredComposedResources (rsp : RunFunctionResponse)
    (dcds : GoMap DesiredComposed) : RunFunctionResponse × Option GoError :=
  ({ rsp with Desired :=
      dcds.foldl (fun m p => GoMap.set m p.1 { Resource := .ofComposed p.2.Resource }) rsp.Desired },
   none)

/-! ## fn.go -/

/-- The policy matrix `supportedTiersByEnv`. -/
def supportedTiersByEnv : GoMap (List String) :=
  [("dev", ["standard", "low"]),
   ("staging", ["critical", "standard", "low"]),
   ("production", ["critical", "standard"])]

/-- The loop of lines 74 to 80: whether some supported tier equals `tier`. -/
def tierFound (tier : String) : List String → Bool
  | [] => false
  | t :: rest => if t = tier then true else tierFound tier rest

/-- The failure detail built on lines 87 to 89. -/
def envTierDetail (env tier : String) (supportedTiers : List String) : String :=
  "environment '" ++ env ++ "' does not support tier '" ++ tier ++
    "'. supported tiers for '" ++ env ++ "' include '" ++
    String.intercalate ", " supportedTiers ++ "'"

/-- The validation step, lines 74 to 90, for the tiers found in the matrix: the
value of `ready` and the value of `envTierErr` when line 91 is reached. -/
def checkTier (env tier : String) (supportedTiers : List String) :
    ConditionStatus × Option GoError :=
  let found := tierFound tier supportedTiers
  let ready := if found then ConditionTrue else ConditionFalse
  let envTierErr : Option GoError :=
    if found then none else errors.Errorf (envTierDetail env tier supportedTiers)
  (ready, envTierErr)

/-- The function `generateDesiredResources`: one `NopResource` per name, named
`baseName + name`, with one `conditionAfter` entry of one second. -/
def generateDesiredResources (names : List String) (baseName : String) (ready : ConditionStatus) :
    GoMap DesiredComposed × Option GoError :=
  go names []
where
  /-- The loop over `names`, with the map built so far. -/
  go : List String → GoMap DesiredComposed → GoMap DesiredComposed × Option GoError
    | [], dcr => (dcr, none)
    | name :: rest, dcr =>
      let r : NopResource :=
        { Name := baseName ++ name
          ConditionAfter :=
            [{ Time := 1 * Second, ConditionType := TypeReady, ConditionStatus := ready }] }
      match composed.From r with
      | (_, some err) =>
        ([], errors.Wrapf (some err)
          "cannot convert *v1alpha1.NopResource to *composed.Unstructured")
      | (dcResource, none) => go rest (GoMap.set dcr name { Resource := dcResource })

/-- The function `handleClassicUX`. -/
def handleClassicUX (rsp : RunFunctionResponse) (err : Option GoError) :
    Except GoPanic (RunFunctionResponse × Option GoError) :=
  match err with
  | some _ => do
    let rsp ← response.Warning rsp (errors.Wrapf err "landing zone provisioning failed")
    let rsp := response.ConditionFalse rsp "ProvisioningSuccess" "Error"
    let m ← GoError.Error err
    let rsp := response.WithMessage rsp m
    pure (rsp, none)
  | none =>
    let rsp := response.ConditionTrue rsp "ProvisioningSuccess" "Success"
    pure (rsp, none)

/-- The function `handleModernUX`. -/
def handleModernUX (rsp : RunFunctionResponse) (err : Option GoError) :
    Except GoPanic (RunFunctionResponse × Option GoError) :=
  match err with
  | some _ => do
    let rsp ← response.Warning rsp (errors.Wrapf err "landing zone provisioning failed")
    let rsp := response.ResultTargetCompositeAndClaim rsp
    let rsp := response.ConditionFalse rsp "ProvisioningSuccess" "Error"
    let m ← GoError.Error err
    let rsp := response.ConditionTargetCompositeAndClaim (response.WithMessage rsp m)
    pure (rsp, none)
  | none =>
    let rsp := response.ConditionTargetCompositeAndClaim
      (response.ConditionTrue rsp "ProvisioningSuccess" "Success")
    pure (rsp, none)

/-- The fixed catalogue of role names passed on line 96. -/
def roleNames : List String :=
  ["account", "user", "role", "security-group", "gateway", "cluster"]

/-- The method `RunFunction`. The result is the returned pair of response and
error, or the panic that ends the call. -/
def RunFunction (req : RunFunctionRequest) :
    Except GoPanic (RunFunctionResponse × Option GoError) :=
  let rsp := response.To req response.DefaultTTL
  match req.Input with
  | .error e => do
    let rsp ← response.Fatal rsp
      (errors.Wrapf (some e) "cannot get Function input from *v1.RunFunctionRequest")
    pure (rsp, none)
  | .ok in_ =>
  match req.Observed with
  | .error e => do
    let rsp ← response.Fatal rsp (errors.Wrapf (some e) "cannot get desired XR")
    pure (rsp, none)
  | .ok oxr =>
  -- past the check of line 59 the variable err holds nil
  let err : Option GoError := none
  let env := (oxr.Resource.GetString ["spec", "environment"]).1
  let tier := (oxr.Resource.GetString ["spec", "tier"]).1
  match GoMap.get? supportedTiersByEnv env with
  | none => do
    let rsp ← response.Fatal rsp (errors.Wrapf err ("unsupported environment: " ++ fmtQuote env))
    pure (rsp, none)
  | some supportedTiers =>
  let found := tierFound tier supportedTiers
  let ready := if found then ConditionTrue else ConditionFalse
  let envTierErr : Option GoError :=
    if found then none else errors.Errorf (envTierDetail env tier supportedTiers)
  match generateDesiredResources roleNames oxr.Resource.GetGenerateName ready with
  | (_, some e) => do
    let rsp ← response.Fatal rsp
      (errors.Wrapf (some e) "cannot generate desired composed resources on *v1.RunFunctionResponse")
    pure (rsp, none)
  | (desiredResources, none) =>
  match response.SetDesiredComposedResources rsp desiredResources with
  | (rsp, some e) => do
    let rsp ← response.Fatal rsp
      (errors.Wrapf (some e) "cannot set desired composed resources on *v1.RunFunctionResponse")
    pure (rsp, none)
  | (rsp, none) =>
  if in_.UX = ClassicUX then handleClassicUX rsp envTierErr
  else if in_.UX = ModernUX then handleModernUX rsp envTierErr
  else do
    let rsp ← response.Fatal rsp (errors.Errorf ("unknown UX " ++ fmtQuote in_.UX))
    pure (rsp, none)

/-! ## RunFunction with the state it leaves behind -/

/-- What a call of `RunFunction` leaves behind: the response object as the call
last wrote it, the local variable `desiredResources` of line 95 (none while that
line has not run), and the way the call ended, with the returned error or with
a panic. -/
structure Run where
  rsp : RunFunctionResponse
  desiredResources : Option (GoMap DesiredComposed)
  ended : Except GoPanic (Option GoError)

/-- What the caller of `RunFunction` gets: the response and the error when the
call returned, the panic otherwise. -/
def Run.outcome (r : Run) : Except GoPanic (RunFunctionResponse × Option GoError) :=
  match r.ended with
  | .ok err => .ok (r.rsp, err)
  | .error p => .error p

/-- The statements `response.Fatal(rsp, err)` and `return rsp, nil`: when
`err.Error()` panics, nothing has been appended to the response yet. -/
def fatalReturn (rsp : RunFunctionResponse) (desiredResources : Option (GoMap DesiredComposed))
    (err : Option GoError) : Run :=
  match response.Fatal rsp err with
  | .ok rsp' => { rsp := rsp', desiredResources := desiredResources, ended := .ok none }
  | .error p => { rsp := rsp, desiredResources := desiredResources, ended := .error p }

/-- The statement `return handle...UX(rsp, envTierErr)`, given what the handler
yields. -/
def handlerReturn (rsp : RunFunctionResponse) (desiredResources : Option (GoMap DesiredComposed))
    (out : Except GoPanic (RunFunctionResponse × Option GoError)) : Run :=
  match out with
  | .ok (rsp', err) => { rsp := rsp', desiredResources := desiredResources, ended := .ok err }
  | .error p => { rsp := rsp, desiredResources := desiredResources, ended := .error p }

/-- The method `RunFunction` in state-passing form: the same statements in the
same order, keeping the response object and the variable `desiredResources` up
to the point where the call ends. -/
def RunFunctionState (req : RunFunctionRequest) : Run :=
  let rsp := response.To req response.DefaultTTL
  match req.Input with
  | .error e =>
    fatalReturn rsp none
      (errors.Wrapf (some e) "cannot get Function input from *v1.RunFunctionRequest")
  | .ok in_ =>
  match req.Observed with
  | .error e => fatalReturn rsp none (errors.Wrapf (some e) "cannot get desired XR")
  | .ok oxr =>
  -- past the check of line 59 the variable err holds nil
  let err : Option GoError := none
  let env := (oxr.Resource.GetString ["spec", "environment"]).1
  let tier := (oxr.Resource.GetString ["spec", "tier"]).1
  match GoMap.get? supportedTiersByEnv env with
  | none =>
    fatalReturn rsp none (errors.Wrapf err ("unsupported environment: " ++ fmtQuote env))
  | some supportedTiers =>
  let found := tierFound tier supportedTiers
  let ready := if found then ConditionTrue else ConditionFalse
  let envTierErr : Option GoError :=
    if found then none else errors.Errorf (envTierDetail env tier supportedTiers)
  match generateDesiredResources roleNames oxr.Resource.GetGenerateName ready with
  | (desiredResources, some e) =>
    fatalReturn rsp (some desiredResources)
      (errors.Wrapf (some e) "cannot generate desired composed resources on *v1.RunFunctionResponse")
  | (desiredResources, none) =>
  match response.SetDesiredComposedResources rsp desiredResources with
  | (rsp, some e) =>
    fatalReturn rsp (some desiredResources)
      (errors.Wrapf (some e) "cannot set desired composed resources on *v1.RunFunctionResponse")
  | (rsp, none) =>
  if in_.UX = ClassicUX then
    handlerReturn rsp (some desiredResources) (handleClassicUX rsp envTierErr)
  else if in_.UX = ModernUX then
    handlerReturn rsp (some desiredResources) (handleModernUX rsp envTierErr)
  else fatalReturn rsp (some desiredResources) (errors.Errorf ("unknown UX " ++ fmtQuote in_.UX))

/-! ## Expected values, from fn_test.go, and comparison helpers -/

/-- The function `generateTestResource` of fn_test.go: the document expected for
a generated resource of the given name and condition status, with its
`conditionAfter` entry of `1s`. -/
def generateTestResource (name status : String) : Struct :=
  .ofComposed
    { apiVersion := "nop.crossplane.io/v1alpha1", kind := "NopResource",
      object :=
        { Name := name
          ConditionAfter :=
            [{ Time := 1000000000, ConditionType := "Ready", ConditionStatus := status }] } }

/-- The desired resources of the response once lines 95 to 108 have run: the
generated resources written into the desired state that `response.To` copied. -/
def attachedDesired (req : RunFunctionRequest) (baseName : String) (ready : ConditionStatus) :
    GoMap Resource :=
  (response.SetDesiredComposedResources (response.To req response.DefaultTTL)
    (generateDesiredResources roleNames baseName ready).1).1.Desired

/-- A response with the target of every result and condition erased. -/
def eraseTargets (rsp : RunFunctionResponse) : RunFunctionResponse :=
  { rsp with
    Results := rsp.Results.map (fun r => { r with Target := none })
    Conditions := rsp.Conditions.map (fun c => { c with Target := none }) }

/-- The response envelope of the specification: the desired resources, the
results and the conditions of a response, with the returned error. -/
def envelope (out : RunFunctionResponse × Option GoError) :
    GoMap Resource × List Result × List Condition × Option GoError :=
  (out.1.Desired, out.1.Results, out.1.Conditions, out.2)

/-! ## Requests of fn_test.go -/

/-- The observed composite resource of the test cases, for an environment and a
tier. -/
def testComposite (env tier : String) : Value :=
  .struct
    [("apiVersion", .string "xp-demo.crossplane.io/v1alpha1"),
     ("kind", .string "XLandingZone"),
     ("spec", .struct
       [("team", .string "core"), ("environment", .string env), ("tier", .string tier)])]

/-- A request of the test cases: a tag, an input with the given `ux`, the
observed composite resource, and no desired state. -/
def testRequest (tag : String) (ux : UXType) (env tier : String) : RunFunctionRequest :=
  { Tag := tag, Input := .ok { UX := ux }, Observed := .ok { Resource := testComposite env tier },
    Desired := [] }

/-- A request whose observed composite resource has no `spec` at all, under the
classic UX. -/
def bareRequest : RunFunctionRequest :=
  { Tag := "bare", Input := .ok { UX := "classic" },
    Observed := .ok { Resource := .struct [("kind", .string "XLandingZone")] }, Desired := [] }

/-- A request of the test cases that arrives with one desired composed resource,
"vpc", left by an earlier step of the pipeline. -/
def testRequestWithDesired (tag : String) (ux : UXType) (env tier : String) :
    RunFunctionRequest :=
  { Tag := tag, Input := .ok { UX := ux }, Observed := .ok { Resource := testComposite env tier },
    Desired := [("vpc", { Resource := .ofValue .null })] }

/-- An observed composite resource with the given environment and tier, another
team and one more field than `testComposite`. -/
def otherTeamComposite (env tier : String) : Value :=
  .struct
    [("apiVersion", .string "xp-demo.crossplane.io/v1alpha1"),
     ("kind", .string "XLandingZone"),
     ("spec", .struct
       [("environment", .string env), ("team", .string "payments"), ("tier", .string tier),
        ("region", .string "eu-west-1")])]

/-- A request that agrees with `testRequest _ ux env tier` on environment, tier,
UX mode and base name, with another tag, another team and one more field. -/
def otherTeamRequest (ux : UXType) (env tier : String) : RunFunctionRequest :=
  { Tag := "other", Input := .ok { UX := ux },
    Observed := .ok { Resource := otherTeamComposite env tier }, Desired := [] }

/-! ## Association lists -/
theorem GoMap.get?_filter_ne {V : Type} (m : GoMap V) (k k' : String) (h : k' ≠ k) :
    GoMap.get? (m.filter (fun p => !decide (p.1 = k))) k' = GoMap.get? m k' := by
  induction m with
  | nil => rfl
  | cons p rest ih =>
    obtain ⟨a, v⟩ := p
    by_cases ha : a = k
    · subst ha
      have hne : ¬ a = k' := fun e => h e.symm
      simp [List.filter, GoMap.get?, hne, ih]
    · simp [List.filter, ha, GoMap.get?, ih]

theorem GoMap.get?_set_self {V : Type} (m : GoMap V) (k : String) (v : V) :
    GoMap.get? (GoMap.set m k v) k = some v := by
  simp [GoMap.set, GoMap.get?]

theorem GoMap.get?_set_ne {V : Type} (m : GoMap V) (k k' : String) (v : V) (h : k' ≠ k) :
    GoMap.get? (GoMap.set m k v) k' = GoMap.get? m k' := by
  have hne : ¬ k = k' := fun e => h e.symm
  simp [GoMap.set, GoMap.get?, hne, GoMap.get?_filter_ne m k k' h]

theorem GoMap.mem_keys_set {V : Type} (m : GoMap V) (k k' : String) (v : V) :
    k' ∈ GoMap.keys (GoMap.set m k v) ↔ k' = k ∨ k' ∈ GoMap.keys m := by
  simp only [GoMap.keys, GoMap.set, List.map_cons, List.mem_cons, List.mem_map, List.mem_filter,
    decide_eq_true_eq]
  constructor
  · rintro (h | ⟨p, ⟨hp, _⟩, rfl⟩)
    · exact Or.inl h
    · exact Or.inr ⟨p, hp, rfl⟩
  · rintro (h | ⟨p, hp, rfl⟩)
    · exact Or.inl h
    · by_cases hk : p.1 = k
      · exact Or.inl hk
      · exact Or.inr ⟨p, ⟨hp, by simp [hk]⟩, rfl⟩

theorem GoMap.nodup_keys_set {V : Type} (m : GoMap V) (k : String) (v : V)
    (h : (GoMap.keys m).Nodup) : (GoMap.keys (GoMap.set m k v)).Nodup := by
  simp only [GoMap.keys, GoMap.set, List.map_cons, List.nodup_cons, List.mem_map, List.mem_filter,
    decide_eq_true_eq]
  refine ⟨?_, ?_⟩
  · rintro ⟨p, ⟨_, hp⟩, rfl⟩
    simp at hp
  · exact (List.Nodup.sublist (List.Sublist.map _ (List.filter_sublist _)) h)

/-! ## The resource generator -/

theorem generateDesiredResources_go_eq (baseName : String) (ready : ConditionStatus)
    (names : List String) (dcr : GoMap DesiredComposed) :
    generateDesiredResources.go baseName ready names dcr =
      (names.foldl (fun d n => GoMap.set d n
        { Resource := { apiVersion := "nop.crossplane.io/v1alpha1", kind := "NopResource",
                        object := { Name := baseName ++ n, ConditionAfter :=
                          [{ Time := 1 * Second, ConditionType := TypeReady,
                             ConditionStatus := ready }] } } }) dcr, none) := by
  induction names generalizing dcr with
  | nil => rfl
  | cons n rest ih => simp [generateDesiredResources.go, composed.From, ih]

theorem GoMap.get?_foldl_set {V : Type} (f : String → V) (names : List String) (m : GoMap V)
    (k : String) :
    GoMap.get? (names.foldl (fun d n => GoMap.set d n (f n)) m) k =
      if k ∈ names then some (f k) else GoMap.get? m k := by
  induction names generalizing m with
  | nil => simp
  | cons n rest ih =>
    simp only [List.foldl_cons, ih, List.mem_cons]
    by_cases hr : k ∈ rest
    · simp [hr]
    · by_cases hn : k = n
      · subst hn
        simp [hr, GoMap.get?_set_self]
      · simp [hr, hn, GoMap.get?_set_ne _ _ _ _ hn]

theorem GoMap.mem_keys_foldl_set {V : Type} (f : String → V) (names : List String) (m : GoMap V)
    (k : String) :
    k ∈ GoMap.keys (names.foldl (fun d n => GoMap.set d n (f n)) m) ↔
      k ∈ names ∨ k ∈ GoMap.keys m := by
  induction names generalizing m with
  | nil => simp
  | cons n rest ih =>
    simp only [List.foldl_cons, ih, List.mem_cons, GoMap.mem_keys_set]
    tauto

theorem GoMap.nodup_keys_foldl_set {V : Type} (f : String → V) (names : List String)
    (m : GoMap V) (h : (GoMap.keys m).Nodup) :
    (GoMap.keys (names.foldl (fun d n => GoMap.set d n (f n)) m)).Nodup := by
  induction names generalizing m with
  | nil => simpa using h
  | cons n rest ih =>
    simp only [List.foldl_cons]
    exact ih _ (GoMap.nodup_keys_set m n (f n) h)

/-! ## The pipeline of RunFunction -/

theorem tierFound_iff (tier : String) (l : List String) : tierFound tier l = true ↔ tier ∈ l := by
  induction l with
  | nil => simp [tierFound]
  | cons t rest ih =>
    by_cases h : t = tier
    · simp [tierFound, h]
    · have h' : ¬ tier = t := fun e => h e.symm
      simp [tierFound, h, h', ih]

theorem tierFound_eq_false (tier : String) (l : List String) (h : tier ∉ l) :
    tierFound tier l = false := by
  cases hf : tierFound tier l with
  | false => rfl
  | true => exact absurd ((tierFound_iff tier l).1 hf) h

theorem attachedDesired_eq (req : RunFunctionRequest) (baseName : String) (ready : ConditionStatus) :
    attachedDesired req baseName ready =
      roleNames.reverse.foldl
        (fun d n => GoMap.set d n { Resource := generateTestResource (baseName ++ n) ready })
        req.Desired := by
  rfl

theorem attachedDesired_get? (req : RunFunctionRequest) (baseName : String) (ready : ConditionStatus)
    (n : String) (hn : n ∈ roleNames) :
    GoMap.get? (attachedDesired req baseName ready) n =
      some { Resource := generateTestResource (baseName ++ n) ready } := by
  rw [attachedDesired_eq,
    GoMap.get?_foldl_set (fun n => ({ Resource := generateTestResource (baseName ++ n) ready } : Resource))]
  simp [hn]

theorem attachedDesired_get?_other (req : RunFunctionRequest) (baseName : String)
    (ready : ConditionStatus) (k : String) (hk : k ∉ roleNames) :
    GoMap.get? (attachedDesired req baseName ready) k = GoMap.get? req.Desired k := by
  rw [attachedDesired_eq,
    GoMap.get?_foldl_set (fun n => ({ Resource := generateTestResource (baseName ++ n) ready } : Resource))]
  simp [hk]

theorem attachedDesired_keys (req : RunFunctionRequest) (baseName : String)
    (ready : ConditionStatus) (k : String) :
    k ∈ GoMap.keys (attachedDesired req baseName ready) ↔
      k ∈ roleNames ∨ k ∈ GoMap.keys req.Desired := by
  rw [attachedDesired_eq,
    GoMap.mem_keys_foldl_set (fun n => ({ Resource := generateTestResource (baseName ++ n) ready } : Resource))]
  simp

theorem RunFunction_known (req : RunFunctionRequest) (in_ : Input) (oxr : Composite)
    (tiers : List String) (hin : req.Input = .ok in_) (hobs : req.Observed = .ok oxr)
    (hlk : GoMap.get? supportedTiersByEnv (oxr.Resource.GetString ["spec", "environment"]).1 =
      some tiers) :
    RunFunction req =
      (let env := (oxr.Resource.GetString ["spec", "environment"]).1
       let tier := (oxr.Resource.GetString ["spec", "tier"]).1
       let found := tierFound tier tiers
       let envTierErr : Option GoError :=
         if found then none else errors.Errorf (envTierDetail env tier tiers)
       let rsp : RunFunctionResponse :=
         { Meta := { Tag := req.Tag, Ttl := response.DefaultTTL }
           Desired := attachedDesired req oxr.Resource.GetGenerateName
             (if found then ConditionTrue else ConditionFalse)
           Results := []
           Conditions := [] }
       if in_.UX = ClassicUX then handleClassicUX rsp envTierErr
       else if in_.UX = ModernUX then handleModernUX rsp envTierErr
       else (response.Fatal rsp (errors.Errorf ("unknown UX " ++ fmtQuote in_.UX))).map
         (fun r => (r, none))) := by
  unfold RunFunction
  simp only [hin, hobs, hlk]
  rfl

theorem RunFunction_rejected (req : RunFunctionRequest) (in_ : Input) (oxr : Composite)
    (tiers : List String) (hin : req.Input = .ok in_) (hobs : req.Observed = .ok oxr)
    (hux : in_.UX = ClassicUX ∨ in_.UX = ModernUX)
    (hlk : GoMap.get? supportedTiersByEnv (oxr.Resource.GetString ["spec", "environment"]).1 =
      some tiers)
    (hnot : (oxr.Resource.GetString ["spec", "tier"]).1 ∉ tiers) :
    RunFunction req = .ok
      ({ Meta := { Tag := req.Tag, Ttl := response.DefaultTTL }
         Desired := attachedDesired req oxr.Resource.GetGenerateName ConditionFalse
         Results :=
           [{ Severity := .warning
              Message := "landing zone provisioning failed: " ++
                envTierDetail (oxr.Resource.GetString ["spec", "environment"]).1
                  (oxr.Resource.GetString ["spec", "tier"]).1 tiers
              Target := some (if in_.UX = ClassicUX then .composite else .compositeAndClaim) }]
         Conditions :=
           [{ Type_ := "ProvisioningSuccess", Status := .conditionFalse, Reason := "Error"
              Message := some (envTierDetail (oxr.Resource.GetString ["spec", "environment"]).1
                (oxr.Resource.GetString ["spec", "tier"]).1 tiers)
              Target := some (if in_.UX = ClassicUX then .composite else .compositeAndClaim) }] },
       none) := by
  rw [RunFunction_known req in_ oxr tiers hin hobs hlk]
  have hf := tierFound_eq_false _ _ hnot
  rcases hux with h | h
  · simp [hf, h, handleClassicUX, errors.Errorf, errors.Wrapf, response.Warning, GoError.Error,
      response.ConditionFalse, response.WithMessage, modifyLast, bind, Except.bind, pure,
      Except.pure]
  · have hne : ¬ ModernUX = ClassicUX := by decide
    simp [hf, h, hne, handleModernUX, errors.Errorf, errors.Wrapf, response.Warning, GoError.Error,
      response.ConditionFalse, response.WithMessage, response.ResultTargetCompositeAndClaim,
      response.ConditionTargetCompositeAndClaim, modifyLast, bind, Except.bind, pure, Except.pure]

theorem RunFunction_permitted (req : RunFunctionRequest) (in_ : Input) (oxr : Composite)
    (tiers : List String) (hin : req.Input = .ok in_) (hobs : req.Observed = .ok oxr)
    (hux : in_.UX = ClassicUX ∨ in_.UX = ModernUX)
    (hlk : GoMap.get? supportedTiersByEnv (oxr.Resource.GetString ["spec", "environment"]).1 =
      some tiers)
    (hmem : (oxr.Resource.GetString ["spec", "tier"]).1 ∈ tiers) :
    RunFunction req = .ok
      ({ Meta := { Tag := req.Tag, Ttl := response.DefaultTTL }
         Desired := attachedDesired req oxr.Resource.GetGenerateName ConditionTrue
         Results := []
         Conditions :=
           [{ Type_ := "ProvisioningSuccess", Status := .conditionTrue, Reason := "Success"
              Message := none
              Target := some (if in_.UX = ClassicUX then .composite else .compositeAndClaim) }] },
       none) := by
  rw [RunFunction_known req in_ oxr tiers hin hobs hlk]
  have hf := (tierFound_iff _ _).2 hmem
  rcases hux with h | h
  · simp [hf, h, handleClassicUX, response.ConditionTrue, pure, Except.pure]
  · have hne : ¬ ModernUX = ClassicUX := by decide
    simp [hf, h, hne, handleModernUX, response.ConditionTrue,
      response.ConditionTargetCompositeAndClaim, modifyLast, pure, Except.pure]

theorem RunFunction_unknownUX (req : RunFunctionRequest) (in_ : Input) (oxr : Composite)
    (tiers : List String) (hin : req.Input = .ok in_) (hobs : req.Observed = .ok oxr)
    (hc : in_.UX ≠ ClassicUX) (hm : in_.UX ≠ ModernUX)
    (hlk : GoMap.get? supportedTiersByEnv (oxr.Resource.GetString ["spec", "environment"]).1 =
      some tiers) :
    RunFunction req = .ok
      ({ Meta := { Tag := req.Tag, Ttl := response.DefaultTTL }
         Desired := attachedDesired req oxr.Resource.GetGenerateName
           (if tierFound (oxr.Resource.GetString ["spec", "tier"]).1 tiers then ConditionTrue
            else ConditionFalse)
         Results :=
           [{ Severity := .fatal, Message := "unknown UX " ++ fmtQuote in_.UX
              Target := some .composite }]
         Conditions := [] },
       none) := by
  rw [RunFunction_known req in_ oxr tiers hin hobs hlk]
  simp [hc, hm, response.Fatal, errors.Errorf, GoError.Error, Except.map]

theorem RunFunction_unknownEnv (req : RunFunctionRequest) (in_ : Input) (oxr : Composite)
    (hin : req.Input = .ok in_) (hobs : req.Observed = .ok oxr)
    (hlk : GoMap.get? supportedTiersByEnv (oxr.Resource.GetString ["spec", "environment"]).1 =
      none) :
    RunFunction req =
      (response.Fatal (response.To req response.DefaultTTL)
        (errors.Wrapf none ("unsupported environment: " ++
          fmtQuote (oxr.Resource.GetString ["spec", "environment"]).1))).map
        (fun r => (r, none)) := by
  unfold RunFunction
  simp only [hin, hobs, hlk]
  rfl

theorem supportedTiersByEnv_get? (env : String) (tiers : List String)
    (h : GoMap.get? supportedTiersByEnv env = some tiers) :
    (env = "dev" ∧ tiers = ["standard", "low"]) ∨
    (env = "staging" ∧ tiers = ["critical", "standard", "low"]) ∨
    (env = "production" ∧ tiers = ["critical", "standard"]) := by
  simp only [supportedTiersByEnv, GoMap.get?] at h
  by_cases h1 : env = "dev"
  · subst h1
    simp at h
    simp [h]
  · have h1' : ¬ "dev" = env := fun e => h1 e.symm
    by_cases h2 : env = "staging"
    · subst h2
      simp at h
      simp [h]
    · have h2' : ¬ "staging" = env := fun e => h2 e.symm
      by_cases h3 : env = "production"
      · subst h3
        simp at h
        simp [h]
      · have h3' : ¬ "production" = env := fun e => h3 e.symm
        simp [h1', h2', h3'] at h

theorem supportedTiersByEnv_get?_none (env : String) :
    GoMap.get? supportedTiersByEnv env = none ↔ env ∉ GoMap.keys supportedTiersByEnv := by
  simp only [supportedTiersByEnv, GoMap.get?, GoMap.keys, List.map, List.mem_cons,
    List.mem_singleton, List.not_mem_nil, or_false, not_or]
  by_cases h1 : env = "dev"
  · subst h1
    simp
  · have h1' : ¬ "dev" = env := fun e => h1 e.symm
    by_cases h2 : env = "staging"
    · subst h2
      simp
    · have h2' : ¬ "staging" = env := fun e => h2 e.symm
      by_cases h3 : env = "production"
      · subst h3
        simp
      · have h3' : ¬ "production" = env := fun e => h3 e.symm
        simp [h1, h2, h3, h1', h2', h3']

/-! ## Claims about validation and the rendered outcome -/

/-- C1. For an environment that is a key of the policy matrix, a tier that its
permitted list does not hold, and the classic or the modern UX, `RunFunction`
returns a response whose only condition is `ProvisioningSuccess` and whose message
is exactly "environment '<env>' does not support tier '<tier>'. supported tiers
for '<env>' include '<T>'", with `<T>` the permitted tiers joined by ", " in the
order the matrix declares them. -/
theorem unsupported_tier_detail (req : RunFunctionRequest) (in_ : Input) (oxr : Composite)
    (env tier : String) (tiers : List String)
    (hin : req.Input = .ok in_) (hux : in_.UX = ClassicUX ∨ in_.UX = ModernUX)
    (hobs : req.Observed = .ok oxr)
    (henv : (oxr.Resource.GetString ["spec", "environment"]).1 = env)
    (htier : (oxr.Resource.GetString ["spec", "tier"]).1 = tier)
    (hlk : GoMap.get? supportedTiersByEnv env = some tiers) (hnot : tier ∉ tiers) :
    ∃ rsp c, RunFunction req = .ok (rsp, none) ∧ rsp.Conditions = [c] ∧
      c.Type_ = "ProvisioningSuccess" ∧
      c.Message = some ("environment '" ++ env ++ "' does not support tier '" ++ tier ++
        "'. supported tiers for '" ++ env ++ "' include '" ++
        String.intercalate ", " tiers ++ "'") := by
  subst henv htier
  exact ⟨_, _, RunFunction_rejected req in_ oxr tiers hin hobs hux hlk hnot, rfl, rfl, rfl⟩

/-- C1, at the request of the test case `UnsupportedTierClassicUX`: production
with tier low lists 'critical, standard'. -/
theorem unsupported_tier_detail_witness :
    ∃ rsp c, RunFunction (testRequest "UnsupportedTierClassicUX" "classic" "production" "low") =
        .ok (rsp, none) ∧ rsp.Conditions = [c] ∧
      c.Type_ = "ProvisioningSuccess" ∧
      c.Message = some "environment 'production' does not support tier 'low'. supported tiers for 'production' include 'critical, standard'" :=
  unsupported_tier_detail (testRequest "UnsupportedTierClassicUX" "classic" "production" "low")
    { UX := "classic" } { Resource := testComposite "production" "low" } "production" "low"
    ["critical", "standard"] rfl (Or.inl rfl) rfl rfl rfl rfl (by decide)

/-- C2. For an environment of the policy matrix and a tier in its permitted list,
under the classic or the modern UX, `RunFunction` returns a response with no
result, exactly one condition `ProvisioningSuccess` with status true, reason
"Success" and no message, and each of the six role names bound in the desired
resources to the generated resource with conditionStatus "True". -/
theorem supported_tier_success (req : RunFunctionRequest) (in_ : Input) (oxr : Composite)
    (env tier : String) (tiers : List String)
    (hin : req.Input = .ok in_) (hux : in_.UX = ClassicUX ∨ in_.UX = ModernUX)
    (hobs : req.Observed = .ok oxr)
    (henv : (oxr.Resource.GetString ["spec", "environment"]).1 = env)
    (htier : (oxr.Resource.GetString ["spec", "tier"]).1 = tier)
    (hlk : GoMap.get? supportedTiersByEnv env = some tiers) (hmem : tier ∈ tiers) :
    ∃ rsp c, RunFunction req = .ok (rsp, none) ∧ rsp.Results = [] ∧ rsp.Conditions = [c] ∧
      c.Type_ = "ProvisioningSuccess" ∧ c.Status = .conditionTrue ∧ c.Reason = "Success" ∧
      c.Message = none ∧
      ∀ n, n ∈ ["account", "user", "role", "security-group", "gateway", "cluster"] →
        GoMap.get? rsp.Desired n =
          some { Resource := generateTestResource (oxr.Resource.GetGenerateName ++ n) "True" } := by
  subst henv htier
  refine ⟨_, _, RunFunction_permitted req in_ oxr tiers hin hobs hux hlk hmem, rfl, rfl, rfl, rfl,
    rfl, rfl, ?_⟩
  intro n hn
  exact attachedDesired_get? req _ ConditionTrue n hn

/-- C2, at the request of the test case `SupportedTierModernUX`. -/
theorem supported_tier_success_witness :
    ∃ rsp c, RunFunction (testRequest "SupportedTierModernUX" "modern" "production" "critical") =
        .ok (rsp, none) ∧ rsp.Results = [] ∧ rsp.Conditions = [c] ∧
      c.Type_ = "ProvisioningSuccess" ∧ c.Status = .conditionTrue ∧ c.Reason = "Success" ∧
      c.Message = none ∧
      ∀ n, n ∈ ["account", "user", "role", "security-group", "gateway", "cluster"] →
        GoMap.get? rsp.Desired n = some { Resource := generateTestResource ("" ++ n) "True" } :=
  supported_tier_success (testRequest "SupportedTierModernUX" "modern" "production" "critical")
    { UX := "modern" } { Resource := testComposite "production" "critical" } "production"
    "critical" ["critical", "standard"] rfl (Or.inr rfl) rfl rfl rfl rfl (by decide)

/-- C3. For an environment of the policy matrix and a tier that is not permitted
for it, under the classic or the modern UX, `RunFunction` returns a response and
no error: the results are exactly one warning whose message is "landing zone
provisioning failed: " followed by the failure detail, the conditions are exactly
one `ProvisioningSuccess` with status false, reason "Error" and the failure detail
as message, and each of the six role names is bound in the desired resources to
the generated resource with conditionStatus "False"; the keys of the desired
resources are the six role names and the keys the request already carried. -/
theorem unsupported_tier_nonfatal (req : RunFunctionRequest) (in_ : Input) (oxr : Composite)
    (env tier : String) (tiers : List String)
    (hin : req.Input = .ok in_) (hux : in_.UX = ClassicUX ∨ in_.UX = ModernUX)
    (hobs : req.Observed = .ok oxr)
    (henv : (oxr.Resource.GetString ["spec", "environment"]).1 = env)
    (htier : (oxr.Resource.GetString ["spec", "tier"]).1 = tier)
    (hlk : GoMap.get? supportedTiersByEnv env = some tiers) (hnot : tier ∉ tiers) :
    ∃ rsp r c, RunFunction req = .ok (rsp, none) ∧
      rsp.Results = [r] ∧ r.Severity = .warning ∧
      r.Message = "landing zone provisioning failed: " ++
        ("environment '" ++ env ++ "' does not support tier '" ++ tier ++
          "'. supported tiers for '" ++ env ++ "' include '" ++
          String.intercalate ", " tiers ++ "'") ∧
      rsp.Conditions = [c] ∧ c.Type_ = "ProvisioningSuccess" ∧ c.Status = .conditionFalse ∧
      c.Reason = "Error" ∧
      c.Message = some ("environment '" ++ env ++ "' does not support tier '" ++ tier ++
        "'. supported tiers for '" ++ env ++ "' include '" ++
        String.intercalate ", " tiers ++ "'") ∧
      (∀ n, n ∈ ["account", "user", "role", "security-group", "gateway", "cluster"] →
        GoMap.get? rsp.Desired n =
          some { Resource := generateTestResource (oxr.Resource.GetGenerateName ++ n) "False" }) ∧
      (∀ k, k ∈ GoMap.keys rsp.Desired ↔
        k ∈ ["account", "user", "role", "security-group", "gateway", "cluster"] ∨
          k ∈ GoMap.keys req.Desired) := by
  subst henv htier
  refine ⟨_, _, _, RunFunction_rejected req in_ oxr tiers hin hobs hux hlk hnot, rfl, rfl, rfl,
    rfl, rfl, rfl, rfl, rfl, ?_, ?_⟩
  · intro n hn
    exact attachedDesired_get? req _ ConditionFalse n hn
  · intro k
    exact attachedDesired_keys req _ ConditionFalse k

/-- C3, at the request of the test case `UnsupportedTierModernUX`. -/
theorem unsupported_tier_nonfatal_witness :
    ∃ rsp r c, RunFunction (testRequest "UnsupportedTierModernUX" "modern" "production" "low") =
        .ok (rsp, none) ∧
      rsp.Results = [r] ∧ r.Severity = .warning ∧
      r.Message = "landing zone provisioning failed: environment 'production' does not support tier 'low'. supported tiers for 'production' include 'critical, standard'" ∧
      rsp.Conditions = [c] ∧ c.Type_ = "ProvisioningSuccess" ∧ c.Status = .conditionFalse ∧
      c.Reason = "Error" ∧
      c.Message = some "environment 'production' does not support tier 'low'. supported tiers for 'production' include 'critical, standard'" ∧
      (∀ n, n ∈ ["account", "user", "role", "security-group", "gateway", "cluster"] →
        GoMap.get? rsp.Desired n = some { Resource := generateTestResource ("" ++ n) "False" }) ∧
      (∀ k, k ∈ GoMap.keys rsp.Desired ↔
        k ∈ ["account", "user", "role", "security-group", "gateway", "cluster"] ∨
          k ∈ GoMap.keys ([] : GoMap Resource)) :=
  unsupported_tier_nonfatal (testRequest "UnsupportedTierModernUX" "modern" "production" "low")
    { UX := "modern" } { Resource := testComposite "production" "low" } "production" "low"
    ["critical", "standard"] rfl (Or.inr rfl) rfl rfl rfl rfl (by decide)

/-- C4. For a request whose environment is a key of the policy matrix, the
response under the classic UX and the response under the modern UX differ in the
target scope only: every result and condition of the classic response targets the
composite, every result and condition of the modern response targets the
composite and the claim, and with the targets erased the two responses are equal. -/
theorem classic_modern_differ_in_target_only (req : RunFunctionRequest) (oxr : Composite)
    (env : String) (tiers : List String)
    (hobs : req.Observed = .ok oxr)
    (henv : (oxr.Resource.GetString ["spec", "environment"]).1 = env)
    (hlk : GoMap.get? supportedTiersByEnv env = some tiers) :
    ∃ rc rm,
      RunFunction { req with Input := .ok { UX := ClassicUX } } = .ok (rc, none) ∧
      RunFunction { req with Input := .ok { UX := ModernUX } } = .ok (rm, none) ∧
      (∀ r, r ∈ rc.Results → r.Target = some .composite) ∧
      (∀ c, c ∈ rc.Conditions → c.Target = some .composite) ∧
      (∀ r, r ∈ rm.Results → r.Target = some .compositeAndClaim) ∧
      (∀ c, c ∈ rm.Conditions → c.Target = some .compositeAndClaim) ∧
      eraseTargets rc = eraseTargets rm := by
  subst henv
  have hne : ¬ ModernUX = ClassicUX := by decide
  by_cases hmem : (oxr.Resource.GetString ["spec", "tier"]).1 ∈ tiers
  · refine ⟨_, _,
      RunFunction_permitted { req with Input := .ok { UX := ClassicUX } } { UX := ClassicUX } oxr
        tiers rfl hobs (Or.inl rfl) hlk hmem,
      RunFunction_permitted { req with Input := .ok { UX := ModernUX } } { UX := ModernUX } oxr
        tiers rfl hobs (Or.inr rfl) hlk hmem, ?_, ?_, ?_, ?_, ?_⟩
    · simp
    · simp
    · simp
    · simp [hne]
    · simp [eraseTargets, attachedDesired, response.To]
  · refine ⟨_, _,
      RunFunction_rejected { req with Input := .ok { UX := ClassicUX } } { UX := ClassicUX } oxr
        tiers rfl hobs (Or.inl rfl) hlk hmem,
      RunFunction_rejected { req with Input := .ok { UX := ModernUX } } { UX := ModernUX } oxr
        tiers rfl hobs (Or.inr rfl) hlk hmem, ?_, ?_, ?_, ?_, ?_⟩
    · simp
    · simp
    · simp [hne]
    · simp [hne]
    · simp [eraseTargets, attachedDesired, response.To]

/-- C4, at the composite resource of the test cases with an unsupported tier. -/
theorem classic_modern_differ_in_target_only_witness :
    ∃ rc rm,
      RunFunction { (testRequest "t" "" "production" "low") with
        Input := .ok { UX := ClassicUX } } = .ok (rc, none) ∧
      RunFunction { (testRequest "t" "" "production" "low") with
        Input := .ok { UX := ModernUX } } = .ok (rm, none) ∧
      (∀ r, r ∈ rc.Results → r.Target = some .composite) ∧
      (∀ c, c ∈ rc.Conditions → c.Target = some .composite) ∧
      (∀ r, r ∈ rm.Results → r.Target = some .compositeAndClaim) ∧
      (∀ c, c ∈ rm.Conditions → c.Target = some .compositeAndClaim) ∧
      eraseTargets rc = eraseTargets rm :=
  classic_modern_differ_in_target_only (testRequest "t" "" "production" "low")
    { Resource := testComposite "production" "low" } "production" ["critical", "standard"]
    rfl rfl rfl

/-- C5, as stated, fails: with the empty `ux` on production and critical the
response has the fatal result and also carries the six desired resources. -/
theorem unknownUX_response_carries_desired :
    ∃ rsp, RunFunction (testRequest "t" "" "production" "critical") = .ok (rsp, none) ∧
      rsp.Results.map (fun r => r.Severity) = [Severity.fatal] ∧
      GoMap.keys rsp.Desired =
        ["account", "user", "role", "security-group", "gateway", "cluster"] ∧
      rsp.Desired ≠ [] :=
  ⟨_, rfl, rfl, rfl, by simp [testRequest, response.To, response.SetDesiredComposedResources,
    GoMap.set]⟩

/-- C5, amended. For a request whose `ux` is neither "classic" nor "modern" and
whose environment is a key of the policy matrix, `RunFunction` returns a response
with exactly one result, of fatal severity, and no condition; the switch on `ux`
runs after the resources are generated and attached, so each of the six role
names is bound in the desired resources to the generated resource, with
conditionStatus "True" when the tier is permitted and "False" otherwise. -/
theorem unknownUX_fatal_after_attach (req : RunFunctionRequest) (in_ : Input) (oxr : Composite)
    (env tier : String) (tiers : List String)
    (hin : req.Input = .ok in_) (hc : in_.UX ≠ "classic") (hm : in_.UX ≠ "modern")
    (hobs : req.Observed = .ok oxr)
    (henv : (oxr.Resource.GetString ["spec", "environment"]).1 = env)
    (htier : (oxr.Resource.GetString ["spec", "tier"]).1 = tier)
    (hlk : GoMap.get? supportedTiersByEnv env = some tiers) :
    ∃ rsp r, RunFunction req = .ok (rsp, none) ∧
      rsp.Results = [r] ∧ r.Severity = .fatal ∧ rsp.Conditions = [] ∧
      ∀ n, n ∈ ["account", "user", "role", "security-group", "gateway", "cluster"] →
        GoMap.get? rsp.Desired n =
          some { Resource := (generateTestResource (oxr.Resource.GetGenerateName ++ n)
            (if tier ∈ tiers then "True" else "False")) } := by
  subst henv htier
  refine ⟨_, _, RunFunction_unknownUX req in_ oxr tiers hin hobs hc hm hlk, rfl, rfl, rfl, ?_⟩
  intro n hn
  have h := attachedDesired_get? req oxr.Resource.GetGenerateName
    (if tierFound (oxr.Resource.GetString ["spec", "tier"]).1 tiers then ConditionTrue
     else ConditionFalse) n hn
  by_cases hmem : (oxr.Resource.GetString ["spec", "tier"]).1 ∈ tiers
  · simpa [hmem, (tierFound_iff _ _).2 hmem, ConditionTrue] using h
  · simpa [hmem, tierFound_eq_false _ _ hmem, ConditionFalse] using h

/-- C5 amended, at the `ux` value "retro" on staging and low. -/
theorem unknownUX_fatal_after_attach_witness :
    ∃ rsp r, RunFunction (testRequest "t" "retro" "staging" "low") = .ok (rsp, none) ∧
      rsp.Results = [r] ∧ r.Severity = .fatal ∧ rsp.Conditions = [] ∧
      ∀ n, n ∈ ["account", "user", "role", "security-group", "gateway", "cluster"] →
        GoMap.get? rsp.Desired n =
          some { Resource := (generateTestResource ("" ++ n)
            (if "low" ∈ ["critical", "standard", "low"] then "True" else "False")) } :=
  unknownUX_fatal_after_attach (testRequest "t" "retro" "staging" "low")
    { UX := "retro" } { Resource := testComposite "staging" "low" } "staging" "low"
    ["critical", "standard", "low"] rfl (by decide) (by decide) rfl rfl rfl rfl

/-- C7, at the failing input: for the environment "mars" the error handed to
`response.Fatal` is the nil that `errors.Wrapf` returns for a nil error, and the
call of `Error()` on it panics; no response is returned. -/
theorem unknown_environment_panics :
    RunFunction (testRequest "t" "classic" "mars" "standard") = .error GoPanic.nilDereference ∧
    errors.Wrapf none ("unsupported environment: " ++ fmtQuote "mars") = none ∧
    response.Fatal (response.To (testRequest "t" "classic" "mars" "standard")
      response.DefaultTTL) none = .error GoPanic.nilDereference :=
  ⟨rfl, rfl, rfl⟩

/-- C8. For every list of names, base name and readiness status,
`generateDesiredResources` returns a map and no error; the keys of the map are
exactly the given names, each once, and the entry at a name `n` is a NopResource
whose `metadata.name` is the base name followed by `n` with no separator and whose
`conditionAfter` is the one-entry list of time one second, condition type
"Ready" and the given status. -/
theorem generateDesiredResources_spec (names : List String) (baseName : String)
    (ready : ConditionStatus) :
    ∃ dcr : GoMap DesiredComposed,
      generateDesiredResources names baseName ready = (dcr, none) ∧
      (∀ k, k ∈ GoMap.keys dcr ↔ k ∈ names) ∧
      (GoMap.keys dcr).Nodup ∧
      ∀ n, n ∈ names →
        GoMap.get? dcr n = some
          { Resource :=
            { apiVersion := "nop.crossplane.io/v1alpha1", kind := "NopResource",
              object :=
                { Name := baseName ++ n
                  ConditionAfter :=
                    [{ Time := 1000000000, ConditionType := "Ready",
                       ConditionStatus := ready }] } } } := by
  refine ⟨_, generateDesiredResources_go_eq baseName ready names [], ?_, ?_, ?_⟩
  · intro k
    rw [GoMap.mem_keys_foldl_set (fun n => ({ Resource := _ } : DesiredComposed))]
    simp [GoMap.keys]
  · exact GoMap.nodup_keys_foldl_set (fun n => ({ Resource := _ } : DesiredComposed)) names []
      (by simp [GoMap.keys])
  · intro n hn
    rw [GoMap.get?_foldl_set (fun n => ({ Resource := _ } : DesiredComposed))]
    simp [hn, Second, TypeReady]

/-- C9. Under the classic or the modern UX, `RunFunction` returns a response with
a `ProvisioningSuccess` condition of status true exactly when the pair of
environment and tier is one of (dev, standard), (dev, low), (staging, critical),
(staging, standard), (staging, low), (production, critical) and
(production, standard), compared as strings. -/
theorem success_iff_permitted_pair (req : RunFunctionRequest) (in_ : Input) (oxr : Composite)
    (env tier : String)
    (hin : req.Input = .ok in_) (hux : in_.UX = ClassicUX ∨ in_.UX = ModernUX)
    (hobs : req.Observed = .ok oxr)
    (henv : (oxr.Resource.GetString ["spec", "environment"]).1 = env)
    (htier : (oxr.Resource.GetString ["spec", "tier"]).1 = tier) :
    (∃ rsp err c, RunFunction req = .ok (rsp, err) ∧ c ∈ rsp.Conditions ∧
      c.Type_ = "ProvisioningSuccess" ∧ c.Status = .conditionTrue) ↔
    (env, tier) ∈ [("dev", "standard"), ("dev", "low"), ("staging", "critical"),
      ("staging", "standard"), ("staging", "low"), ("production", "critical"),
      ("production", "standard")] := by
  subst henv htier
  cases hlk : GoMap.get? supportedTiersByEnv (oxr.Resource.GetString ["spec", "environment"]).1 with
  | none =>
    have hkey := (supportedTiersByEnv_get?_none _).1 hlk
    have hrun := RunFunction_unknownEnv req in_ oxr hin hobs hlk
    constructor
    · rintro ⟨rsp, err, c, h, _⟩
      rw [hrun] at h
      simp [response.Fatal, errors.Wrapf, GoError.Error, Except.map] at h
    · intro h
      exfalso
      apply hkey
      simp only [List.mem_cons, Prod.mk.injEq, List.mem_singleton, List.not_mem_nil, or_false] at h
      simp only [supportedTiersByEnv, GoMap.keys, List.map, List.mem_cons, List.mem_singleton,
        List.not_mem_nil, or_false]
      rcases h with h | h | h | h | h | h | h <;> simp [h.1]
  | some tiers =>
    by_cases hmem : (oxr.Resource.GetString ["spec", "tier"]).1 ∈ tiers
    · have hrun := RunFunction_permitted req in_ oxr tiers hin hobs hux hlk hmem
      constructor
      · intro _
        rcases supportedTiersByEnv_get? _ _ hlk with ⟨he, ht⟩ | ⟨he, ht⟩ | ⟨he, ht⟩ <;>
          · subst ht
            simpa [he] using hmem
      · intro _
        exact ⟨_, _, _, hrun, List.mem_singleton.2 rfl, rfl, rfl⟩
    · have hrun := RunFunction_rejected req in_ oxr tiers hin hobs hux hlk hmem
      constructor
      · rintro ⟨rsp, err, c, h, hc, _, hs⟩
        rw [hrun] at h
        injection h with h
        injection h with h _
        subst h
        simp only [List.mem_singleton] at hc
        subst hc
        cases hs
      · intro h
        exfalso
        apply hmem
        simp only [List.mem_cons, Prod.mk.injEq, List.mem_singleton, List.not_mem_nil,
          or_false] at h
        rcases h with h | h | h | h | h | h | h <;>
          · rw [h.1] at hlk
            have ht : tiers = _ := (Option.some.inj hlk).symm
            rw [ht, h.2]
            decide

/-- C9, at production with the tier "Critical": the pair is none of the seven, so
the request does not succeed. -/
theorem success_iff_permitted_pair_witness :
    ((∃ rsp err c, RunFunction (testRequest "t" "classic" "production" "Critical") =
        .ok (rsp, err) ∧ c ∈ rsp.Conditions ∧
      c.Type_ = "ProvisioningSuccess" ∧ c.Status = .conditionTrue) ↔
    ("production", "Critical") ∈ [("dev", "standard"), ("dev", "low"), ("staging", "critical"),
      ("staging", "standard"), ("staging", "low"), ("production", "critical"),
      ("production", "standard")]) ∧
    ("production", "Critical") ∉ [("dev", "standard"), ("dev", "low"), ("staging", "critical"),
      ("staging", "standard"), ("staging", "low"), ("production", "critical"),
      ("production", "standard")] :=
  ⟨success_iff_permitted_pair (testRequest "t" "classic" "production" "Critical")
    { UX := "classic" } { Resource := testComposite "production" "Critical" } "production"
    "Critical" rfl (Or.inl rfl) rfl rfl rfl, by decide⟩

/-- C10. For a request whose environment is a key of the policy matrix, under the
classic or the modern UX, the response of `RunFunction` has exactly one
condition, named `ProvisioningSuccess`, and at most one result: either the
condition has status true, reason "Success" and no message and there is no
result, or it has status false, reason "Error" and the failure detail as message
and there is exactly one result, a warning, whose target is the target of the
condition. -/
theorem one_condition_matching_result (req : RunFunctionRequest) (in_ : Input) (oxr : Composite)
    (env tier : String) (tiers : List String)
    (hin : req.Input = .ok in_) (hux : in_.UX = ClassicUX ∨ in_.UX = ModernUX)
    (hobs : req.Observed = .ok oxr)
    (henv : (oxr.Resource.GetString ["spec", "environment"]).1 = env)
    (htier : (oxr.Resource.GetString ["spec", "tier"]).1 = tier)
    (hlk : GoMap.get? supportedTiersByEnv env = some tiers) :
    ∃ rsp c, RunFunction req = .ok (rsp, none) ∧ rsp.Conditions = [c] ∧
      c.Type_ = "ProvisioningSuccess" ∧ rsp.Results.length ≤ 1 ∧
      ((c.Status = .conditionTrue ∧ c.Reason = "Success" ∧ c.Message = none ∧
          rsp.Results = []) ∨
       (c.Status = .conditionFalse ∧ c.Reason = "Error" ∧
          c.Message = some ("environment '" ++ env ++ "' does not support tier '" ++ tier ++
            "'. supported tiers for '" ++ env ++ "' include '" ++
            String.intercalate ", " tiers ++ "'") ∧
          ∃ r, rsp.Results = [r] ∧ r.Severity = .warning ∧ r.Target = c.Target)) := by
  subst henv htier
  by_cases hmem : (oxr.Resource.GetString ["spec", "tier"]).1 ∈ tiers
  · exact ⟨_, _, RunFunction_permitted req in_ oxr tiers hin hobs hux hlk hmem, rfl, rfl,
      by simp, Or.inl ⟨rfl, rfl, rfl, rfl⟩⟩
  · exact ⟨_, _, RunFunction_rejected req in_ oxr tiers hin hobs hux hlk hmem, rfl, rfl,
      by simp, Or.inr ⟨rfl, rfl, rfl, _, rfl, rfl, rfl⟩⟩

/-- C10, at dev with the tier critical under the modern UX. -/
theorem one_condition_matching_result_witness :
    ∃ rsp c, RunFunction (testRequest "t" "modern" "dev" "critical") = .ok (rsp, none) ∧
      rsp.Conditions = [c] ∧
      c.Type_ = "ProvisioningSuccess" ∧ rsp.Results.length ≤ 1 ∧
      ((c.Status = .conditionTrue ∧ c.Reason = "Success" ∧ c.Message = none ∧
          rsp.Results = []) ∨
       (c.Status = .conditionFalse ∧ c.Reason = "Error" ∧
          c.Message = some ("environment '" ++ "dev" ++ "' does not support tier '" ++
            "critical" ++ "'. supported tiers for '" ++ "dev" ++ "' include '" ++
            String.intercalate ", " ["standard", "low"] ++ "'") ∧
          ∃ r, rsp.Results = [r] ∧ r.Severity = .warning ∧ r.Target = c.Target)) :=
  one_condition_matching_result (testRequest "t" "modern" "dev" "critical")
    { UX := "modern" } { Resource := testComposite "dev" "critical" } "dev" "critical"
    ["standard", "low"] rfl (Or.inr rfl) rfl rfl rfl rfl


/-! ## Further closed forms of RunFunction -/

theorem attachedDesired_congr (req₁ req₂ : RunFunctionRequest) (baseName : String)
    (ready : ConditionStatus) (h : req₁.Desired = req₂.Desired) :
    attachedDesired req₁ baseName ready = attachedDesired req₂ baseName ready := by
  rw [attachedDesired_eq, attachedDesired_eq, h]

theorem RunFunction_inputError (req : RunFunctionRequest) (e : GoError)
    (hin : req.Input = .error e) :
    RunFunction req = .ok
      ({ Meta := { Tag := req.Tag, Ttl := response.DefaultTTL }
         Desired := req.Desired
         Results :=
           [{ Severity := .fatal
              Message := "cannot get Function input from *v1.RunFunctionRequest: " ++ e.msg
              Target := some .composite }]
         Conditions := [] },
       none) := by
  unfold RunFunction
  simp only [hin]
  rfl

theorem RunFunction_observedError (req : RunFunctionRequest) (in_ : Input) (e : GoError)
    (hin : req.Input = .ok in_) (hobs : req.Observed = .error e) :
    RunFunction req = .ok
      ({ Meta := { Tag := req.Tag, Ttl := response.DefaultTTL }
         Desired := req.Desired
         Results :=
           [{ Severity := .fatal, Message := "cannot get desired XR: " ++ e.msg
              Target := some .composite }]
         Conditions := [] },
       none) := by
  unfold RunFunction
  simp only [hin, hobs]
  rfl

theorem RunFunction_unknownEnv_panics (req : RunFunctionRequest) (in_ : Input) (oxr : Composite)
    (hin : req.Input = .ok in_) (hobs : req.Observed = .ok oxr)
    (hlk : GoMap.get? supportedTiersByEnv (oxr.Resource.GetString ["spec", "environment"]).1 =
      none) :
    RunFunction req = .error GoPanic.nilDereference := by
  rw [RunFunction_unknownEnv req in_ oxr hin hobs hlk]
  rfl

/-- For an environment of the matrix the call returns, whatever the `ux`, and the
desired resources are those attached on line 104. -/
theorem RunFunction_known_returns (req : RunFunctionRequest) (in_ : Input) (oxr : Composite)
    (tiers : List String) (hin : req.Input = .ok in_) (hobs : req.Observed = .ok oxr)
    (hlk : GoMap.get? supportedTiersByEnv (oxr.Resource.GetString ["spec", "environment"]).1 =
      some tiers) :
    ∃ rsp, RunFunction req = .ok (rsp, none) ∧
      rsp.Desired = attachedDesired req oxr.Resource.GetGenerateName
        (if tierFound (oxr.Resource.GetString ["spec", "tier"]).1 tiers then ConditionTrue
         else ConditionFalse) := by
  by_cases hc : in_.UX = ClassicUX
  · by_cases hmem : (oxr.Resource.GetString ["spec", "tier"]).1 ∈ tiers
    · exact ⟨_, RunFunction_permitted req in_ oxr tiers hin hobs (Or.inl hc) hlk hmem,
        by simp [(tierFound_iff _ _).2 hmem]⟩
    · exact ⟨_, RunFunction_rejected req in_ oxr tiers hin hobs (Or.inl hc) hlk hmem,
        by simp [tierFound_eq_false _ _ hmem]⟩
  · by_cases hm : in_.UX = ModernUX
    · by_cases hmem : (oxr.Resource.GetString ["spec", "tier"]).1 ∈ tiers
      · exact ⟨_, RunFunction_permitted req in_ oxr tiers hin hobs (Or.inr hm) hlk hmem,
          by simp [(tierFound_iff _ _).2 hmem]⟩
      · exact ⟨_, RunFunction_rejected req in_ oxr tiers hin hobs (Or.inr hm) hlk hmem,
          by simp [tierFound_eq_false _ _ hmem]⟩
    · exact ⟨_, RunFunction_unknownUX req in_ oxr tiers hin hobs hc hm hlk, rfl⟩

/-- The outcome of `RunFunction` for an environment of the matrix, in terms of the
validation step `checkTier`. -/
theorem RunFunction_checkTier (req : RunFunctionRequest) (in_ : Input) (oxr : Composite)
    (tiers : List String) (hin : req.Input = .ok in_) (hobs : req.Observed = .ok oxr)
    (hlk : GoMap.get? supportedTiersByEnv (oxr.Resource.GetString ["spec", "environment"]).1 =
      some tiers) :
    RunFunction req =
      (let validated := checkTier (oxr.Resource.GetString ["spec", "environment"]).1
         (oxr.Resource.GetString ["spec", "tier"]).1 tiers
       let rsp : RunFunctionResponse :=
         { Meta := { Tag := req.Tag, Ttl := response.DefaultTTL }
           Desired := attachedDesired req oxr.Resource.GetGenerateName validated.1
           Results := []
           Conditions := [] }
       if in_.UX = ClassicUX then handleClassicUX rsp validated.2
       else if in_.UX = ModernUX then handleModernUX rsp validated.2
       else (response.Fatal rsp (errors.Errorf ("unknown UX " ++ fmtQuote in_.UX))).map
         (fun r => (r, none))) := by
  rw [RunFunction_known req in_ oxr tiers hin hobs hlk]
  rfl

theorem checkTier_of_mem (env tier : String) (tiers : List String) (h : tier ∈ tiers) :
    checkTier env tier tiers = (ConditionTrue, none) := by
  simp [checkTier, (tierFound_iff _ _).2 h]

theorem checkTier_of_not_mem (env tier : String) (tiers : List String) (h : tier ∉ tiers) :
    checkTier env tier tiers =
      (ConditionFalse, some { msg := envTierDetail env tier tiers }) := by
  simp [checkTier, tierFound_eq_false _ _ h, errors.Errorf]


/-! ## Claims about determinism, readiness and the order of the pipeline -/

/-- C11, as stated, fails: two requests with the same input, the same observed
composite resource (so the same environment, tier, UX mode and base name) get
different desired resources when one of them arrives with a desired resource of
an earlier pipeline step. -/
theorem prior_desired_state_changes_envelope :
    ∃ ra rb,
      (testRequest "t" "classic" "production" "low").Input =
        (testRequestWithDesired "t" "classic" "production" "low").Input ∧
      (testRequest "t" "classic" "production" "low").Observed =
        (testRequestWithDesired "t" "classic" "production" "low").Observed ∧
      RunFunction (testRequest "t" "classic" "production" "low") = .ok (ra, none) ∧
      RunFunction (testRequestWithDesired "t" "classic" "production" "low") = .ok (rb, none) ∧
      GoMap.keys ra.Desired =
        ["account", "user", "role", "security-group", "gateway", "cluster"] ∧
      GoMap.keys rb.Desired =
        ["account", "user", "role", "security-group", "gateway", "cluster", "vpc"] ∧
      GoMap.keys ra.Desired ≠ GoMap.keys rb.Desired :=
  ⟨_, _, rfl, rfl, rfl, rfl, rfl, rfl, by decide⟩

/-- C11, amended. Two requests that agree on environment, tier, UX mode, base
name and the desired resources they arrive with have the same outcome of
`RunFunction` up to the response envelope: the same desired resources, results,
conditions and returned error. The tag and every other field of the observed
composite resource have no influence. -/
theorem same_inputs_same_envelope (req₁ req₂ : RunFunctionRequest) (in₁ in₂ : Input)
    (oxr₁ oxr₂ : Composite)
    (hin₁ : req₁.Input = .ok in₁) (hin₂ : req₂.Input = .ok in₂)
    (hobs₁ : req₁.Observed = .ok oxr₁) (hobs₂ : req₂.Observed = .ok oxr₂)
    (hux : in₁.UX = in₂.UX)
    (henv : (oxr₁.Resource.GetString ["spec", "environment"]).1 =
      (oxr₂.Resource.GetString ["spec", "environment"]).1)
    (htier : (oxr₁.Resource.GetString ["spec", "tier"]).1 =
      (oxr₂.Resource.GetString ["spec", "tier"]).1)
    (hbase : oxr₁.Resource.GetGenerateName = oxr₂.Resource.GetGenerateName)
    (hdes : req₁.Desired = req₂.Desired) :
    (RunFunction req₁).map envelope = (RunFunction req₂).map envelope := by
  cases hlk : GoMap.get? supportedTiersByEnv
      (oxr₁.Resource.GetString ["spec", "environment"]).1 with
  | none =>
    rw [RunFunction_unknownEnv_panics req₁ in₁ oxr₁ hin₁ hobs₁ hlk,
      RunFunction_unknownEnv_panics req₂ in₂ oxr₂ hin₂ hobs₂ (henv ▸ hlk)]
  | some tiers =>
    have hlk₂ : GoMap.get? supportedTiersByEnv
        (oxr₂.Resource.GetString ["spec", "environment"]).1 = some tiers := henv ▸ hlk
    have hd := attachedDesired_congr req₁ req₂ oxr₂.Resource.GetGenerateName
    by_cases hux₁ : in₁.UX = ClassicUX ∨ in₁.UX = ModernUX
    · have hux₂ : in₂.UX = ClassicUX ∨ in₂.UX = ModernUX := hux ▸ hux₁
      by_cases hmem : (oxr₁.Resource.GetString ["spec", "tier"]).1 ∈ tiers
      · rw [RunFunction_permitted req₁ in₁ oxr₁ tiers hin₁ hobs₁ hux₁ hlk hmem,
          RunFunction_permitted req₂ in₂ oxr₂ tiers hin₂ hobs₂ hux₂ hlk₂ (htier ▸ hmem)]
        simp [Except.map, envelope, hbase, hux, hd _ hdes]
      · rw [RunFunction_rejected req₁ in₁ oxr₁ tiers hin₁ hobs₁ hux₁ hlk hmem,
          RunFunction_rejected req₂ in₂ oxr₂ tiers hin₂ hobs₂ hux₂ hlk₂ (htier ▸ hmem)]
        simp [Except.map, envelope, hbase, hux, henv, htier, hd _ hdes]
    · have hc₁ : in₁.UX ≠ ClassicUX := fun h => hux₁ (Or.inl h)
      have hm₁ : in₁.UX ≠ ModernUX := fun h => hux₁ (Or.inr h)
      rw [RunFunction_unknownUX req₁ in₁ oxr₁ tiers hin₁ hobs₁ hc₁ hm₁ hlk,
        RunFunction_unknownUX req₂ in₂ oxr₂ tiers hin₂ hobs₂ (hux ▸ hc₁) (hux ▸ hm₁) hlk₂]
      simp [Except.map, envelope, hbase, hux, htier, hd _ hdes]

/-- C11 amended, at the request of the test case `UnsupportedTierClassicUX` and a
request with another tag, another team and one more field. -/
theorem same_inputs_same_envelope_witness :
    (RunFunction (testRequest "UnsupportedTierClassicUX" "classic" "production" "low")).map
        envelope =
      (RunFunction (otherTeamRequest "classic" "production" "low")).map envelope :=
  same_inputs_same_envelope (testRequest "UnsupportedTierClassicUX" "classic" "production" "low")
    (otherTeamRequest "classic" "production" "low") { UX := "classic" } { UX := "classic" }
    { Resource := testComposite "production" "low" }
    { Resource := otherTeamComposite "production" "low" } rfl rfl rfl rfl rfl rfl rfl rfl rfl

/-- C12. For a request whose environment is a key of the policy matrix, whatever
the `ux`, `RunFunction` returns a response in which the six generated resources
all carry one and the same conditionStatus, and that status is "True" exactly
when the tier is in the permitted list of the environment and "False" exactly
when it is not. -/
theorem uniform_readiness (req : RunFunctionRequest) (in_ : Input) (oxr : Composite)
    (env tier : String) (tiers : List String)
    (hin : req.Input = .ok in_) (hobs : req.Observed = .ok oxr)
    (henv : (oxr.Resource.GetString ["spec", "environment"]).1 = env)
    (htier : (oxr.Resource.GetString ["spec", "tier"]).1 = tier)
    (hlk : GoMap.get? supportedTiersByEnv env = some tiers) :
    ∃ rsp status, RunFunction req = .ok (rsp, none) ∧
      (∀ n, n ∈ ["account", "user", "role", "security-group", "gateway", "cluster"] →
        GoMap.get? rsp.Desired n =
          some { Resource := generateTestResource (oxr.Resource.GetGenerateName ++ n) status }) ∧
      (status = "True" ↔ tier ∈ tiers) ∧ (status = "False" ↔ tier ∉ tiers) := by
  subst henv htier
  obtain ⟨rsp, hrun, hdes⟩ := RunFunction_known_returns req in_ oxr tiers hin hobs hlk
  refine ⟨rsp, (if tierFound (oxr.Resource.GetString ["spec", "tier"]).1 tiers then ConditionTrue
    else ConditionFalse), hrun, ?_, ?_, ?_⟩
  · intro n hn
    rw [hdes]
    exact attachedDesired_get? req _ _ n hn
  · by_cases hmem : (oxr.Resource.GetString ["spec", "tier"]).1 ∈ tiers
    · simp [hmem, (tierFound_iff _ _).2 hmem, ConditionTrue]
    · simp [hmem, tierFound_eq_false _ _ hmem, ConditionFalse]
  · by_cases hmem : (oxr.Resource.GetString ["spec", "tier"]).1 ∈ tiers
    · simp [hmem, (tierFound_iff _ _).2 hmem, ConditionTrue]
    · simp [hmem, tierFound_eq_false _ _ hmem, ConditionFalse]

/-- C12, at dev with the tier low under the classic UX. -/
theorem uniform_readiness_witness :
    ∃ rsp status, RunFunction (testRequest "t" "classic" "dev" "low") = .ok (rsp, none) ∧
      (∀ n, n ∈ ["account", "user", "role", "security-group", "gateway", "cluster"] →
        GoMap.get? rsp.Desired n =
          some { Resource := generateTestResource ("" ++ n) status }) ∧
      (status = "True" ↔ "low" ∈ ["standard", "low"]) ∧
      (status = "False" ↔ "low" ∉ ["standard", "low"]) :=
  uniform_readiness (testRequest "t" "classic" "dev" "low") { UX := "classic" }
    { Resource := testComposite "dev" "low" } "dev" "low" ["standard", "low"]
    rfl rfl rfl rfl rfl

/-- C13. For a request whose environment is a key of the policy matrix, the
validation step of `RunFunction` (the values of `ready` and `envTierErr` with
which the rest of the function runs) yields a non-nil `envTierErr` exactly when
the tier is not permitted, which is exactly when `ready` is `ConditionFalse`; a
permitted tier yields `ConditionTrue` and nil, a rejected one `ConditionFalse`
and the failure detail. -/
theorem detail_iff_rejected (req : RunFunctionRequest) (in_ : Input) (oxr : Composite)
    (env tier : String) (tiers : List String)
    (hin : req.Input = .ok in_) (hobs : req.Observed = .ok oxr)
    (henv : (oxr.Resource.GetString ["spec", "environment"]).1 = env)
    (htier : (oxr.Resource.GetString ["spec", "tier"]).1 = tier)
    (hlk : GoMap.get? supportedTiersByEnv env = some tiers) :
    RunFunction req =
      (let rsp : RunFunctionResponse :=
         { Meta := { Tag := req.Tag, Ttl := response.DefaultTTL }
           Desired := attachedDesired req oxr.Resource.GetGenerateName
             (checkTier env tier tiers).1
           Results := []
           Conditions := [] }
       if in_.UX = ClassicUX then handleClassicUX rsp (checkTier env tier tiers).2
       else if in_.UX = ModernUX then handleModernUX rsp (checkTier env tier tiers).2
       else (response.Fatal rsp (errors.Errorf ("unknown UX " ++ fmtQuote in_.UX))).map
         (fun r => (r, none))) ∧
    ((checkTier env tier tiers).2 ≠ none ↔ tier ∉ tiers) ∧
    ((checkTier env tier tiers).2 ≠ none ↔ (checkTier env tier tiers).1 = ConditionFalse) ∧
    (tier ∈ tiers → checkTier env tier tiers = (ConditionTrue, none)) ∧
    (tier ∉ tiers → checkTier env tier tiers =
      (ConditionFalse, some { msg := ("environment '" ++ env ++ "' does not support tier '" ++
        tier ++ "'. supported tiers for '" ++ env ++ "' include '" ++
        String.intercalate ", " tiers ++ "'") })) := by
  subst henv htier
  refine ⟨RunFunction_checkTier req in_ oxr tiers hin hobs hlk, ?_, ?_, ?_, ?_⟩
  · by_cases hmem : (oxr.Resource.GetString ["spec", "tier"]).1 ∈ tiers
    · simp [checkTier_of_mem _ _ _ hmem, hmem]
    · simp [checkTier_of_not_mem _ _ _ hmem, hmem]
  · by_cases hmem : (oxr.Resource.GetString ["spec", "tier"]).1 ∈ tiers
    · simp [checkTier_of_mem _ _ _ hmem, ConditionTrue, ConditionFalse]
    · simp [checkTier_of_not_mem _ _ _ hmem]
  · exact checkTier_of_mem _ _ _
  · exact checkTier_of_not_mem _ _ _

/-- C13, at staging with the tier "gold" under the modern UX. -/
theorem detail_iff_rejected_witness :
    ((checkTier "staging" "gold" ["critical", "standard", "low"]).2 ≠ none ↔
      "gold" ∉ ["critical", "standard", "low"]) ∧
    ((checkTier "staging" "gold" ["critical", "standard", "low"]).2 ≠ none ↔
      (checkTier "staging" "gold" ["critical", "standard", "low"]).1 = ConditionFalse) :=
  have h := detail_iff_rejected (testRequest "t" "modern" "staging" "gold") { UX := "modern" }
    { Resource := testComposite "staging" "gold" } "staging" "gold"
    ["critical", "standard", "low"] rfl rfl rfl rfl rfl
  ⟨h.2.1, h.2.2.1⟩

/-- C14, at the failing input: with the environment "mars" and the `ux` value
"retro" the call ends at the lookup of line 69, in `response.Fatal` with the nil
error of line 71, and panics; it returns no response, neither one with the
unknown-environment error nor one with the "unknown UX" result. -/
theorem unknown_environment_and_ux_panics :
    RunFunction (testRequest "t" "retro" "mars" "standard") =
      (response.Fatal (response.To (testRequest "t" "retro" "mars" "standard")
        response.DefaultTTL)
        (errors.Wrapf none ("unsupported environment: " ++ fmtQuote "mars"))).map
        (fun r => (r, none)) ∧
    RunFunction (testRequest "t" "retro" "mars" "standard") = .error GoPanic.nilDereference ∧
    ¬ ∃ rsp err, RunFunction (testRequest "t" "retro" "mars" "standard") = .ok (rsp, err) := by
  refine ⟨rfl, rfl, ?_⟩
  rintro ⟨rsp, err, h⟩
  have hrun : RunFunction (testRequest "t" "retro" "mars" "standard") =
      .error GoPanic.nilDereference := rfl
  rw [hrun] at h
  cases h

/-- C15, at the failing input and in general: with an empty environment the call
panics; every call either returns a response with a nil error or panics, and it
panics exactly for a request that decodes and whose environment is not a key of
the policy matrix. -/
theorem returns_or_panics_on_unknown_environment :
    RunFunction (testRequest "t" "modern" "" "low") = .error GoPanic.nilDereference ∧
    ∀ req : RunFunctionRequest,
      (∃ rsp, RunFunction req = .ok (rsp, none)) ∨
      (RunFunction req = .error GoPanic.nilDereference ∧
        ∃ in_ oxr, req.Input = .ok in_ ∧ req.Observed = .ok oxr ∧
          (oxr.Resource.GetString ["spec", "environment"]).1 ∉
            GoMap.keys supportedTiersByEnv) := by
  refine ⟨rfl, ?_⟩
  intro req
  cases hin : req.Input with
  | error e => exact Or.inl ⟨_, RunFunction_inputError req e hin⟩
  | ok in_ =>
    cases hobs : req.Observed with
    | error e => exact Or.inl ⟨_, RunFunction_observedError req in_ e hin hobs⟩
    | ok oxr =>
      cases hlk : GoMap.get? supportedTiersByEnv
          (oxr.Resource.GetString ["spec", "environment"]).1 with
      | none =>
        exact Or.inr ⟨RunFunction_unknownEnv_panics req in_ oxr hin hobs hlk, in_, oxr, rfl, rfl,
          (supportedTiersByEnv_get?_none _).1 hlk⟩
      | some tiers =>
        obtain ⟨rsp, hrun, _⟩ := RunFunction_known_returns req in_ oxr tiers hin hobs hlk
        exact Or.inl ⟨rsp, hrun⟩

/-! ## The state a call leaves behind, and the unknown environment -/

theorem handlerReturn_outcome (rsp : RunFunctionResponse)
    (dr : Option (GoMap DesiredComposed))
    (out : Except GoPanic (RunFunctionResponse × Option GoError)) :
    (handlerReturn rsp dr out).outcome = out := by
  cases out with
  | error p => rfl
  | ok v => rfl

theorem fatalReturn_outcome (rsp : RunFunctionResponse) (dr : Option (GoMap DesiredComposed))
    (err : Option GoError) :
    (fatalReturn rsp dr err).outcome = (response.Fatal rsp err).map (fun r => (r, none)) := by
  cases err with
  | none => rfl
  | some e => rfl

/-- The state-passing form ends as `RunFunction` does, for every request. -/
theorem RunFunction_eq_outcome (req : RunFunctionRequest) :
    RunFunction req = (RunFunctionState req).outcome := by
  cases hin : req.Input with
  | error e =>
    rw [RunFunction_inputError req e hin]
    unfold RunFunctionState
    simp only [hin]
    rfl
  | ok in_ =>
    cases hobs : req.Observed with
    | error e =>
      rw [RunFunction_observedError req in_ e hin hobs]
      unfold RunFunctionState
      simp only [hin, hobs]
      rfl
    | ok oxr =>
      cases hlk : GoMap.get? supportedTiersByEnv
          (oxr.Resource.GetString ["spec", "environment"]).1 with
      | none =>
        rw [RunFunction_unknownEnv req in_ oxr hin hobs hlk]
        unfold RunFunctionState
        simp only [hin, hobs, hlk]
        rfl
      | some tiers =>
        rw [RunFunction_known req in_ oxr tiers hin hobs hlk]
        unfold RunFunctionState
        simp only [hin, hobs, hlk]
        by_cases hc : in_.UX = ClassicUX
        · simp only [hc, if_true]
          exact (handlerReturn_outcome _ _ _).symm
        · by_cases hm : in_.UX = ModernUX
          · simp only [hc, hm, if_true, if_false]
            exact (handlerReturn_outcome _ _ _).symm
          · simp only [hc, hm, if_false]
            exact (fatalReturn_outcome _ _ _).symm

theorem RunFunctionState_unknownEnv (req : RunFunctionRequest) (in_ : Input) (oxr : Composite)
    (hin : req.Input = .ok in_) (hobs : req.Observed = .ok oxr)
    (hlk : GoMap.get? supportedTiersByEnv (oxr.Resource.GetString ["spec", "environment"]).1 =
      none) :
    RunFunctionState req =
      fatalReturn (response.To req response.DefaultTTL) none
        (errors.Wrapf none ("unsupported environment: " ++
          fmtQuote (oxr.Resource.GetString ["spec", "environment"]).1)) := by
  unfold RunFunctionState
  simp only [hin, hobs, hlk]

/-- What `fatalReturn` leaves behind, whether `response.Fatal` appends its result
or panics: the desired resources and the conditions of the response untouched,
the variable `desiredResources` untouched, and at most the one fatal result
more. -/
theorem fatalReturn_state (rsp : RunFunctionResponse) (dr : Option (GoMap DesiredComposed))
    (err : Option GoError) :
    (fatalReturn rsp dr err).desiredResources = dr ∧
    (fatalReturn rsp dr err).rsp.Desired = rsp.Desired ∧
    (fatalReturn rsp dr err).rsp.Conditions = rsp.Conditions ∧
    ((fatalReturn rsp dr err).rsp.Results = rsp.Results ∨
      ∃ r, (fatalReturn rsp dr err).rsp.Results = rsp.Results ++ [r] ∧ r.Severity = .fatal) := by
  cases err with
  | none => exact ⟨rfl, rfl, rfl, Or.inl rfl⟩
  | some e => exact ⟨rfl, rfl, rfl, Or.inr ⟨_, rfl, rfl⟩⟩

/-- For an environment of the matrix the state-passing form does run line 95 and
line 104: the variable `desiredResources` holds the six generated resources and
they are in the desired resources of the response. -/
theorem RunFunctionState_known (req : RunFunctionRequest) (in_ : Input) (oxr : Composite)
    (tiers : List String) (hin : req.Input = .ok in_) (hobs : req.Observed = .ok oxr)
    (hlk : GoMap.get? supportedTiersByEnv (oxr.Resource.GetString ["spec", "environment"]).1 =
      some tiers) :
    (RunFunctionState req).desiredResources =
      some (generateDesiredResources roleNames oxr.Resource.GetGenerateName
        (if tierFound (oxr.Resource.GetString ["spec", "tier"]).1 tiers then ConditionTrue
         else ConditionFalse)).1 := by
  unfold RunFunctionState
  simp only [hin, hobs, hlk]
  by_cases hc : in_.UX = ClassicUX
  · by_cases hf : tierFound (oxr.Resource.GetString ["spec", "tier"]).1 tiers = true
    · simp only [hc, hf, if_true]; rfl
    · simp only [hc, hf, if_true]; rfl
  · by_cases hm : in_.UX = ModernUX
    · by_cases hf : tierFound (oxr.Resource.GetString ["spec", "tier"]).1 tiers = true
      · simp only [hc, hm, hf, if_true, if_false]; rfl
      · simp only [hc, hm, hf, if_true, if_false]; rfl
    · simp only [hc, hm, if_false]
      rfl

/-- C6, as stated, fails: for the environment "qa", which the policy matrix does
not hold, the call ends with line 95 not run and nothing attached: the variable
`desiredResources` was never assigned, the response object holds no desired
resource when the call ends, and `RunFunction` returns no response in which the
six resources are generated. -/
theorem unknown_environment_generates_nothing :
    (RunFunctionState (testRequest "t" "modern" "qa" "standard")).desiredResources = none ∧
    (RunFunctionState (testRequest "t" "modern" "qa" "standard")).rsp.Desired = [] ∧
    ¬ ∃ rsp err, RunFunction (testRequest "t" "modern" "qa" "standard") = .ok (rsp, err) ∧
      ∀ n, n ∈ ["account", "user", "role", "security-group", "gateway", "cluster"] →
        GoMap.get? rsp.Desired n = some { Resource := generateTestResource ("" ++ n) "False" } := by
  refine ⟨rfl, rfl, ?_⟩
  rintro ⟨rsp, err, h, _⟩
  have hrun : RunFunction (testRequest "t" "modern" "qa" "standard") =
      .error GoPanic.nilDereference := rfl
  rw [hrun] at h
  cases h

/-- C6, amended. For a request whose `spec.environment` is not a key of the
policy matrix, `RunFunction` ends on the fatal branch of the lookup, before the
resources are generated: when the call ends, line 95 has not run (the variable
`desiredResources` is unassigned), the desired resources of the response object
are those the request arrived with, the response has no condition, and its
results are none or a single fatal one, so there is no warning; what
`RunFunction` hands back is that response object, if the call returns. -/
theorem unknown_environment_is_fatal_branch (req : RunFunctionRequest) (in_ : Input)
    (oxr : Composite) (env : String)
    (hin : req.Input = .ok in_) (hobs : req.Observed = .ok oxr)
    (henv : (oxr.Resource.GetString ["spec", "environment"]).1 = env)
    (hkey : env ∉ GoMap.keys supportedTiersByEnv) :
    RunFunction req = (RunFunctionState req).outcome ∧
    (RunFunctionState req).desiredResources = none ∧
    (RunFunctionState req).rsp.Desired = req.Desired ∧
    (RunFunctionState req).rsp.Conditions = [] ∧
    ((RunFunctionState req).rsp.Results = [] ∨
      ∃ r, (RunFunctionState req).rsp.Results = [r] ∧ r.Severity = .fatal) := by
  subst henv
  have hlk := (supportedTiersByEnv_get?_none _).2 hkey
  have hst := RunFunctionState_unknownEnv req in_ oxr hin hobs hlk
  obtain ⟨h1, h2, h3, h4⟩ := fatalReturn_state (response.To req response.DefaultTTL) none
    (errors.Wrapf none ("unsupported environment: " ++
      fmtQuote (oxr.Resource.GetString ["spec", "environment"]).1))
  rw [← hst] at h1 h2 h3 h4
  refine ⟨RunFunction_eq_outcome req, h1, h2, h3, ?_⟩
  rcases h4 with h | ⟨r, h, hr⟩
  · exact Or.inl h
  · exact Or.inr ⟨r, h, hr⟩

/-- C6 amended, at a request whose composite resource has no `spec`. -/
theorem unknown_environment_is_fatal_branch_witness :
    RunFunction bareRequest = (RunFunctionState bareRequest).outcome ∧
    (RunFunctionState bareRequest).desiredResources = none ∧
    (RunFunctionState bareRequest).rsp.Desired = bareRequest.Desired ∧
    (RunFunctionState bareRequest).rsp.Conditions = [] ∧
    ((RunFunctionState bareRequest).rsp.Results = [] ∨
      ∃ r, (RunFunctionState bareRequest).rsp.Results = [r] ∧ r.Severity = .fatal) :=
  unknown_environment_is_fatal_branch bareRequest { UX := "classic" }
    { Resource := .struct [("kind", .string "XLandingZone")] } "" rfl rfl rfl (by decide)

end Fn
